import Mathlib

/-!
Verification of the OxideEngine HTTP service bootstrap (`src/lib.rs`).

The embedding models, faithfully to the Rust source:

* the three constant handlers `health_check`, `root_handler`, `error_handler`;
* the route table built with `Router::new().route(p, get(h))`, with the
  framework fallbacks: 404 for unmatched paths; on a matched path, axum's
  `get` registers the handler for GET and also for HEAD (served with the
  response body stripped), and other methods get the framework's 405;
* the middleware stack `ServiceBuilder::new().layer(TraceLayer).layer(CorsLayer
  ::permissive()).layer(RequestBodyLimitLayer::new(1024*1024)).timeout(10s)`,
  applied outermost-first in that order around the router;
* `start_server`, as a function of an environment (`World`) recording the
  outcome of each external interaction, returning both the final outcome and
  the ordered trace of side effects it performed.

Services are modelled as functions from a request to a result carrying the
response, the time (in seconds) at which the underlying future completed, and
the list of handler names that were invoked; the last two let us state that
the body-limit middleware rejects before any handler runs and that the
timeout middleware bounds completion time.
-/

namespace OxideEngine

/-- HTTP methods relevant to routing. -/
inductive Method
  | GET | HEAD | POST | PUT | DELETE | OPTIONS | PATCH
  deriving DecidableEq, Repr

/-- An inbound HTTP request: method, path, headers, query parameters and the
raw body (a list of bytes, so `body.length` is the body size in bytes). -/
structure Request where
  method : Method
  path : String
  headers : List (String × String)
  query : List (String × String)
  body : List Nat
  deriving DecidableEq, Repr

/-- An HTTP response: numeric status code, body text, response headers. -/
structure Response where
  status : Nat
  body : String
  headers : List (String × String)
  deriving DecidableEq, Repr

/-- Status codes used by the service (`axum::http::StatusCode`). -/
def StatusCode.OK : Nat := 200

/-- `StatusCode::INTERNAL_SERVER_ERROR`. -/
def StatusCode.INTERNAL_SERVER_ERROR : Nat := 500

/-- Framework 404 for unmatched paths. -/
def StatusCode.NOT_FOUND : Nat := 404

/-- Framework 405 for a matched path whose method router has no entry. -/
def StatusCode.METHOD_NOT_ALLOWED : Nat := 405

/-- Framework 413 for a body over the configured limit. -/
def StatusCode.PAYLOAD_TOO_LARGE : Nat := 413

/-- `async fn health_check() -> impl IntoResponse { (StatusCode::OK, "Healthy") }` -/
def health_check : Response := ⟨StatusCode.OK, "Healthy", []⟩

/-- `async fn root_handler() -> impl IntoResponse { (StatusCode::OK, "OxideEngine Running") }` -/
def root_handler : Response := ⟨StatusCode.OK, "OxideEngine Running", []⟩

/-- `async fn error_handler() -> impl IntoResponse { (StatusCode::INTERNAL_SERVER_ERROR, "Server Error") }` -/
def error_handler : Response := ⟨StatusCode.INTERNAL_SERVER_ERROR, "Server Error", []⟩

/-- `sqlx::PgPool` connection-pool handle (opaque to every handler). -/
structure PgPool where
  url : String
  deriving DecidableEq, Repr

/-- `redis::Client` handle (opaque to every handler; never used after
construction in this version). -/
structure RedisClient where
  url : String
  deriving DecidableEq, Repr

/-- Shared application state (`struct AppState { db_pool, cache }`),
injected via `.with_state(app_state)` and read by no handler. -/
structure AppState where
  db_pool : PgPool
  cache : RedisClient
  deriving DecidableEq, Repr

/-- Result of running a service on one request: the response, the time in
seconds at which the service's future completed, and the names of the
handlers that were invoked while producing the response. -/
structure SvcResult where
  resp : Response
  time : Nat
  ran : List String
  deriving DecidableEq, Repr

/-- A request-handling service: what a tower `Service` computes per request. -/
abbrev Service := Request → SvcResult

/-- `axum::routing::get(handler)`: a method router that dispatches GET to the
handler (which completes immediately, since the handlers do no work). Axum's
`get` also registers the handler for HEAD: a HEAD request runs the same
handler and gets the same status, with the response body stripped when the
server writes it. Every other method gets the framework's 405 response. -/
def getRoute (name : String) (handler : Response) (m : Method) : SvcResult :=
  if m = Method.GET then ⟨handler, 0, [name]⟩
  else if m = Method.HEAD then ⟨{ handler with body := ("") }, 0, [name]⟩
  else ⟨⟨StatusCode.METHOD_NOT_ALLOWED, "", []⟩, 0, []⟩

/-- The route table from
`Router::new().route("/", get(root_handler)).route("/health", get(health_check))
.route("/error", get(error_handler)).with_state(app_state)`;
unmatched paths fall back to the framework's 404 response. -/
def router (s : AppState) : Service := fun r =>
  if r.path = "/" then getRoute "root_handler" root_handler r.method
  else if r.path = "/health" then getRoute "health_check" health_check r.method
  else if r.path = "/error" then getRoute "error_handler" error_handler r.method
  else ⟨⟨StatusCode.NOT_FOUND, "", []⟩, 0, []⟩

/-- `TraceLayer::new_for_http()`: emits trace spans and logs; it does not
change the request, the response, or the timing. -/
def traceLayer (inner : Service) : Service := fun r => inner r

/-- Response headers injected by `CorsLayer::permissive()`. -/
def corsHeaders : List (String × String) :=
  [("access-control-allow-origin", "*"),
   ("access-control-allow-methods", "*"),
   ("access-control-allow-headers", "*")]

/-- `CorsLayer::permissive()`: per the spec, unrestricted cross-origin header
injection on every response; status and body are untouched. -/
def corsLayer (inner : Service) : Service := fun r =>
  let o := inner r
  { o with resp := { o.resp with headers := corsHeaders ++ o.resp.headers } }

/-- The configured body limit: `RequestBodyLimitLayer::new(1024 * 1024)`. -/
def bodyLimit : Nat := 1024 * 1024

/-- `RequestBodyLimitLayer::new(limit)`: a request whose body exceeds the
limit is answered with the framework's 413 response without running the
inner service (so no handler runs); otherwise the request passes through
unchanged. -/
def requestBodyLimitLayer (limit : Nat) (inner : Service) : Service := fun r =>
  if limit < r.body.length then
    ⟨⟨StatusCode.PAYLOAD_TOO_LARGE, "", []⟩, 0, []⟩
  else inner r

/-- `.timeout(Duration::from_secs(budget))`: if the inner future has not
completed within the budget it is cancelled at the deadline and, per the
spec, the client receives a server error; otherwise the inner result is
returned as is. -/
def timeoutLayer (budget : Nat) (inner : Service) : Service := fun r =>
  let o := inner r
  if budget < o.time then
    ⟨⟨StatusCode.INTERNAL_SERVER_ERROR, "", []⟩, budget, o.ran⟩
  else o

/-- The middleware stack of `start_server`: `ServiceBuilder` applies layers
outermost-first in the order they were added, so the trace layer is
outermost and the timeout sits directly around the router. -/
def middleware_stack (inner : Service) : Service :=
  traceLayer (corsLayer (requestBodyLimitLayer bodyLimit (timeoutLayer 10 inner)))

/-- The complete application: the route table wrapped in the middleware
stack (`Router::new()...layer(middleware_stack)`). -/
def app (s : AppState) : Service :=
  middleware_stack (router s)

/-- Startup errors `start_server` can propagate through `?`. -/
inductive StartError
  | dbConnectFailed
  | redisUrlInvalid
  | addrMalformed
  | bindFailed
  | serveFailed
  deriving DecidableEq, Repr

/-- Observable side effects of `start_server`, in the trace order they are
performed. `cacheContact` (any network interaction with the cache service)
is included so that we can state that it never occurs. -/
inductive Effect
  | initLogging | dbConnect | redisOpen | parseAddr | bindSocket | serve | cacheContact
  deriving DecidableEq, Repr, Fintype

/-- Outcome of `start_server`, mirroring `Result<(), Box<dyn Error>>` plus a
`running` state for the server loop that serves indefinitely and never
resolves normally. -/
inductive StartOutcome
  | ok
  | err (e : StartError)
  | running
  deriving DecidableEq, Repr

/-- The environment `start_server` runs in: the outcome of each external
interaction it may attempt. `cacheReachable` records whether the cache
service would answer — `start_server` never consults it. -/
structure World where
  dbReachable : Bool
  redisUrlValid : Bool
  addrParses : Bool
  socketFree : Bool
  cacheReachable : Bool
  serveFails : Bool
  deriving DecidableEq, Repr

/-- `redis::Client::open(redis_url)`: purely local construction that parses
the connection string and builds a handle; it succeeds exactly when the URL
parses, performing no network interaction (`urlValid` says whether the
string is a syntactically valid cache URL). -/
def redis_open (url : String) (urlValid : Bool) : Except StartError RedisClient :=
  if urlValid then Except.ok ⟨url⟩ else Except.error StartError.redisUrlInvalid

/-- `pub async fn start_server(database_url, redis_url, server_addr)`:
initialize logging, connect the database pool (`?`), open the redis client
(`?`), build state, middleware and routes (pure), parse the bind address
(`?`), bind and serve (`?`). Returns the outcome together with the ordered
trace of side effects performed. -/
def start_server (database_url redis_url server_addr : String) (w : World) :
    StartOutcome × List Effect :=
  let t1 := [Effect.initLogging, Effect.dbConnect]
  if w.dbReachable = false then
    (StartOutcome.err StartError.dbConnectFailed, t1)
  else
    let t2 := t1 ++ [Effect.redisOpen]
    match redis_open redis_url w.redisUrlValid with
    | Except.error e => (StartOutcome.err e, t2)
    | Except.ok redis_client =>
      let app_state : AppState := ⟨⟨database_url⟩, redis_client⟩
      let _serving : Service := app app_state
      let t3 := t2 ++ [Effect.parseAddr]
      if w.addrParses = false then
        (StartOutcome.err StartError.addrMalformed, t3)
      else
        let t4 := t3 ++ [Effect.bindSocket]
        if w.socketFree = false then
          (StartOutcome.err StartError.bindFailed, t4)
        else
          let t5 := t4 ++ [Effect.serve]
          if w.serveFails then (StartOutcome.err StartError.serveFailed, t5)
          else (StartOutcome.running, t5)

/-- Closed-form trace of the side effects `start_server` performs in a given
world (proved equal to the trace it actually produces in `start_server_eq`). -/
def effectsOf (w : World) : List Effect :=
  [Effect.initLogging, Effect.dbConnect] ++
  if w.dbReachable then
    [Effect.redisOpen] ++
    (if w.redisUrlValid then
      [Effect.parseAddr] ++
      (if w.addrParses then
        [Effect.bindSocket] ++ (if w.socketFree then [Effect.serve] else [])
      else [])
    else [])
  else []

/-- Closed-form outcome of `start_server` in a given world (proved equal to
the outcome it actually produces in `start_server_eq`). -/
def outcomeOf (w : World) : StartOutcome :=
  if w.dbReachable then
    if w.redisUrlValid then
      if w.addrParses then
        if w.socketFree then
          if w.serveFails then StartOutcome.err StartError.serveFailed
          else StartOutcome.running
        else StartOutcome.err StartError.bindFailed
      else StartOutcome.err StartError.addrMalformed
    else StartOutcome.err StartError.redisUrlInvalid
  else StartOutcome.err StartError.dbConnectFailed

/-- `start_server` computes exactly the closed-form outcome and trace; in
particular neither depends on the three connection strings. -/
theorem start_server_eq (du ru sa : String) (w : World) :
    start_server du ru sa w = (outcomeOf w, effectsOf w) := by
  obtain ⟨db, rv, ap, sf, cr, se⟩ := w
  cases db <;> cases rv <;> cases ap <;> cases sf <;> cases se <;> rfl

/-- The canonical complete effect order of a fully successful startup. -/
def fullTrace : List Effect :=
  [Effect.initLogging, Effect.dbConnect, Effect.redisOpen, Effect.parseAddr,
   Effect.bindSocket, Effect.serve]

/-! Concrete inputs used by the witnesses. -/

/-- A concrete application state. -/
def demoState : AppState := ⟨⟨"postgresql://db:5432/oxide"⟩, ⟨"redis://cache:6379"⟩⟩

/-- A GET request with empty headers, query and body. -/
def getReq (p : String) : Request := ⟨Method.GET, p, [], [], []⟩

/-- A POST request carrying a body one byte over the 1 MiB limit. -/
def bigBodyReq : Request := ⟨Method.POST, ("/"), [], [], List.replicate (1024 * 1024 + 1) 0⟩

/-- A GET request to `/health` with nonempty headers, query and body. -/
def decoratedReq : Request :=
  ⟨Method.GET, ("/health"), [("x-request-id", "42")], [("verbose", "1")], [104, 105]⟩

/-- A service whose future takes 25 seconds, for exercising the timeout. -/
def slowSvc : Service := fun _ => ⟨⟨StatusCode.OK, "late", []⟩, 25, ["slow_handler"]⟩

/-! Helper lemmas about the pipeline. -/

/-- Every branch of the route table completes at time 0: the handlers are
constants and do no work. -/
theorem router_time_eq (s : AppState) (r : Request) : (router s r).time = 0 := by
  unfold router getRoute
  repeat' split
  all_goals rfl

/-- On a request whose body is within the limit, the app is the router's
answer with the CORS headers prepended: the body-limit layer passes the
request through and the timeout never fires (the router completes at 0). -/
theorem app_pass (s : AppState) (r : Request) (h : r.body.length ≤ bodyLimit) :
    app s r =
      { router s r with
        resp := { (router s r).resp with
                  headers := corsHeaders ++ (router s r).resp.headers } } := by
  have ht : ¬ 10 < (router s r).time := by rw [router_time_eq]; decide
  unfold app middleware_stack traceLayer corsLayer requestBodyLimitLayer timeoutLayer
  simp only [if_neg (Nat.not_lt.mpr h), if_neg ht]

/-- On a request whose body exceeds the limit, the app answers 413 (with the
CORS headers injected on the way out) without running any handler. -/
theorem app_reject (s : AppState) (r : Request) (h : bodyLimit < r.body.length) :
    app s r =
      { resp := ⟨StatusCode.PAYLOAD_TOO_LARGE, "", corsHeaders⟩, time := 0, ran := [] } := by
  unfold app middleware_stack traceLayer corsLayer requestBodyLimitLayer
  simp only [if_pos h]
  rfl

/-- The route table reads only the request's method and path: not the
application state, the headers, the query, or the body. -/
theorem router_reads_method_path (s s' : AppState) (r r' : Request)
    (hm : r.method = r'.method) (hp : r.path = r'.path) :
    router s r = router s' r' := by
  unfold router getRoute
  rw [hm, hp]

/-! Claim theorems about the HTTP surface. -/

/-- C7: every GET request to `/` returns status 200 with body exactly
"OxideEngine Running" — both at the route table and through the full
middleware stack (for a request the body-limit middleware lets through). -/
theorem get_root_returns_running (s : AppState) (r : Request)
    (hm : r.method = Method.GET) (hp : r.path = ("/")) :
    (router s r).resp.status = 200 ∧
    (router s r).resp.body = ("OxideEngine Running") ∧
    (r.body.length ≤ bodyLimit →
      (app s r).resp.status = 200 ∧ (app s r).resp.body = ("OxideEngine Running")) := by
  have hr : router s r = ⟨root_handler, 0, [("root_handler")]⟩ := by
    unfold router getRoute
    rw [hp, hm]
    simp
  refine ⟨by rw [hr]; rfl, by rw [hr]; rfl, fun hb => ?_⟩
  rw [app_pass s r hb, hr]
  exact ⟨rfl, rfl⟩

/-- C7 witness: a concrete GET request to `/`. -/
theorem get_root_returns_running_witness :
    (router demoState (getReq ("/"))).resp.status = 200 ∧
    (router demoState (getReq ("/"))).resp.body = ("OxideEngine Running") ∧
    ((app demoState (getReq ("/"))).resp.status = 200 ∧
     (app demoState (getReq ("/"))).resp.body = ("OxideEngine Running")) := by
  obtain ⟨h1, h2, h3⟩ := get_root_returns_running demoState (getReq ("/")) rfl rfl
  exact ⟨h1, h2, h3 (by decide)⟩

/-- C8: every GET request to `/health` returns status 200 with body exactly
"Healthy" — at the route table and through the full middleware stack. -/
theorem get_health_returns_healthy (s : AppState) (r : Request)
    (hm : r.method = Method.GET) (hp : r.path = ("/health")) :
    (router s r).resp.status = 200 ∧
    (router s r).resp.body = ("Healthy") ∧
    (r.body.length ≤ bodyLimit →
      (app s r).resp.status = 200 ∧ (app s r).resp.body = ("Healthy")) := by
  have hr : router s r = ⟨health_check, 0, [("health_check")]⟩ := by
    unfold router getRoute
    rw [hp, hm]
    simp
  refine ⟨by rw [hr]; rfl, by rw [hr]; rfl, fun hb => ?_⟩
  rw [app_pass s r hb, hr]
  exact ⟨rfl, rfl⟩

/-- C8 witness: a concrete GET request to `/health`, with headers, query
parameters and a small body. -/
theorem get_health_returns_healthy_witness :
    (router demoState decoratedReq).resp.status = 200 ∧
    (router demoState decoratedReq).resp.body = ("Healthy") ∧
    ((app demoState decoratedReq).resp.status = 200 ∧
     (app demoState decoratedReq).resp.body = ("Healthy")) := by
  obtain ⟨h1, h2, h3⟩ := get_health_returns_healthy demoState decoratedReq rfl rfl
  exact ⟨h1, h2, h3 (by decide)⟩

/-- C6: every GET request to `/error` returns status 500 with body exactly
"Server Error" — at the route table and through the full middleware stack;
the handler is a constant, so every invocation yields this response. -/
theorem get_error_returns_500 (s : AppState) (r : Request)
    (hm : r.method = Method.GET) (hp : r.path = ("/error")) :
    (router s r).resp.status = 500 ∧
    (router s r).resp.body = ("Server Error") ∧
    (r.body.length ≤ bodyLimit →
      (app s r).resp.status = 500 ∧ (app s r).resp.body = ("Server Error")) := by
  have hr : router s r = ⟨error_handler, 0, [("error_handler")]⟩ := by
    unfold router getRoute
    rw [hp, hm]
    simp
  refine ⟨by rw [hr]; rfl, by rw [hr]; rfl, fun hb => ?_⟩
  rw [app_pass s r hb, hr]
  exact ⟨rfl, rfl⟩

/-- C6 witness: a concrete GET request to `/error`. -/
theorem get_error_returns_500_witness :
    (router demoState (getReq ("/error"))).resp.status = 500 ∧
    (router demoState (getReq ("/error"))).resp.body = ("Server Error") ∧
    ((app demoState (getReq ("/error"))).resp.status = 500 ∧
     (app demoState (getReq ("/error"))).resp.body = ("Server Error")) := by
  obtain ⟨h1, h2, h3⟩ := get_error_returns_500 demoState (getReq ("/error")) rfl rfl
  exact ⟨h1, h2, h3 (by decide)⟩

/-- C9: handler responses are independent of all inputs: two requests with
the same method and path (any headers, query parameters, or bodies within
the middleware limit) under any two application states receive the same
status and body. -/
theorem handlers_input_independent (s s' : AppState) (r r' : Request)
    (hm : r.method = r'.method) (hp : r.path = r'.path)
    (hb : r.body.length ≤ bodyLimit) (hb' : r'.body.length ≤ bodyLimit) :
    (app s r).resp.status = (app s' r').resp.status ∧
    (app s r).resp.body = (app s' r').resp.body := by
  rw [app_pass s r hb, app_pass s' r' hb', router_reads_method_path s s' r r' hm hp]
  exact ⟨rfl, rfl⟩

/-- C9 witness: two GET requests to `/health` differing in headers, query,
body and application state receive the same status and body. -/
theorem handlers_input_independent_witness :
    (app demoState decoratedReq).resp.status =
      (app ⟨⟨"postgresql://other:5432/x"⟩, ⟨"redis://other:6380"⟩⟩ (getReq ("/health"))).resp.status ∧
    (app demoState decoratedReq).resp.body =
      (app ⟨⟨"postgresql://other:5432/x"⟩, ⟨"redis://other:6380"⟩⟩ (getReq ("/health"))).resp.body :=
  handlers_input_independent demoState ⟨⟨"postgresql://other:5432/x"⟩, ⟨"redis://other:6380"⟩⟩
    decoratedReq (getReq ("/health")) rfl rfl (by decide) (by decide)

/-- C10 counterexample: a HEAD request to `/` is not answered 405 — it is
dispatched to `root_handler` (axum's `get` registers HEAD too) and returns
the handler's 200 status with the body stripped. -/
theorem head_request_dispatched :
    (app demoState ⟨Method.HEAD, ("/"), [], [], []⟩).ran = [("root_handler")] ∧
    (app demoState ⟨Method.HEAD, ("/"), [], [], []⟩).resp.status = 200 ∧
    ¬ (app demoState ⟨Method.HEAD, ("/"), [], [], []⟩).resp.status =
        StatusCode.METHOD_NOT_ALLOWED := by
  refine ⟨?_, ?_, ?_⟩ <;> decide

/-- C10 amended: the three paths are registered with axum's `get`, which
serves GET and HEAD. A request to `/`, `/health` or `/error` with method
POST, PUT, DELETE or PATCH is never dispatched to a handler and receives
the framework's 405 method-not-allowed response; a HEAD request is
dispatched exactly like the corresponding GET request (same handler, same
status) with the response body stripped. (OPTIONS is not covered: the
permissive CORS layer answers preflight requests itself, before the
router.) -/
theorem get_head_routing_method_not_allowed (s : AppState) (r : Request)
    (hpaths : r.path = ("/") ∨ r.path = ("/health") ∨ r.path = ("/error"))
    (hb : r.body.length ≤ bodyLimit) :
    ((r.method = Method.POST ∨ r.method = Method.PUT ∨ r.method = Method.DELETE ∨
      r.method = Method.PATCH) →
      (app s r).resp.status = StatusCode.METHOD_NOT_ALLOWED ∧ (app s r).ran = []) ∧
    (r.method = Method.HEAD →
      (app s r).ran = (app s { r with method := Method.GET }).ran ∧
      (app s r).resp.status = (app s { r with method := Method.GET }).resp.status ∧
      (app s r).resp.body = ("")) := by
  constructor
  · intro hm
    have hr : router s r = ⟨⟨StatusCode.METHOD_NOT_ALLOWED, "", []⟩, 0, []⟩ := by
      unfold router getRoute
      rcases hpaths with hp | hp | hp <;> rw [hp] <;>
        rcases hm with hm | hm | hm | hm <;> rw [hm] <;> simp
    rw [app_pass s r hb, hr]
    exact ⟨rfl, rfl⟩
  · intro hm
    have hb' : ({ r with method := Method.GET } : Request).body.length ≤ bodyLimit := hb
    rw [app_pass s r hb, app_pass s { r with method := Method.GET } hb']
    unfold router getRoute
    rcases hpaths with hp | hp | hp <;> rw [hp, hm] <;> simp

/-- C10 amended witness: a POST to `/` gets 405 with no handler; a HEAD to
`/health` runs the same handler as GET `/health`, with the same status and
an empty body. -/
theorem get_head_routing_method_not_allowed_witness :
    ((app demoState ⟨Method.POST, ("/"), [], [], []⟩).resp.status =
       StatusCode.METHOD_NOT_ALLOWED ∧
     (app demoState ⟨Method.POST, ("/"), [], [], []⟩).ran = []) ∧
    ((app demoState ⟨Method.HEAD, ("/health"), [], [], []⟩).ran =
       (app demoState ⟨Method.GET, ("/health"), [], [], []⟩).ran ∧
     (app demoState ⟨Method.HEAD, ("/health"), [], [], []⟩).resp.status =
       (app demoState ⟨Method.GET, ("/health"), [], [], []⟩).resp.status ∧
     (app demoState ⟨Method.HEAD, ("/health"), [], [], []⟩).resp.body = ("")) :=
  ⟨(get_head_routing_method_not_allowed demoState ⟨Method.POST, ("/"), [], [], []⟩
      (Or.inl rfl) (by decide)).1 (Or.inl rfl),
   (get_head_routing_method_not_allowed demoState ⟨Method.HEAD, ("/health"), [], [], []⟩
      (Or.inr (Or.inl rfl)) (by decide)).2 rfl⟩

/-- C2: on every route (matched or not), a request whose body exceeds
1 MiB is answered with the 413 client error and no handler runs; a request
whose body is within the limit is passed through untouched, i.e. the app
behaves as the same stack with the body-limit layer removed. -/
theorem body_limit_enforced (s : AppState) (r : Request) :
    (bodyLimit < r.body.length →
      (app s r).resp.status = StatusCode.PAYLOAD_TOO_LARGE ∧
      400 ≤ (app s r).resp.status ∧ (app s r).resp.status < 500 ∧
      (app s r).ran = []) ∧
    (r.body.length ≤ bodyLimit →
      app s r = traceLayer (corsLayer (timeoutLayer 10 (router s))) r) := by
  constructor
  · intro h
    rw [app_reject s r h]
    exact ⟨rfl, by decide, by decide, rfl⟩
  · intro h
    unfold app middleware_stack traceLayer corsLayer requestBodyLimitLayer
    simp only [if_neg (Nat.not_lt.mpr h)]

/-- C2 witness: a 1 MiB + 1 byte body is rejected with 413 and no handler
runs; an empty body passes through to the limit-free stack. -/
theorem body_limit_enforced_witness :
    ((app demoState bigBodyReq).resp.status = StatusCode.PAYLOAD_TOO_LARGE ∧
     400 ≤ (app demoState bigBodyReq).resp.status ∧
     (app demoState bigBodyReq).resp.status < 500 ∧
     (app demoState bigBodyReq).ran = []) ∧
    app demoState (getReq ("/")) =
      traceLayer (corsLayer (timeoutLayer 10 (router demoState))) (getReq ("/")) :=
  ⟨(body_limit_enforced demoState bigBodyReq).1
      (by unfold bigBodyReq; rw [List.length_replicate]; decide),
   (body_limit_enforced demoState (getReq ("/"))).2 (by decide)⟩

/-- C3: the 10-second timeout middleware bounds every request: the wrapped
service always completes by the 10-second deadline (no request is left
pending indefinitely), and whenever the inner future has not completed
within 10 seconds it is cancelled at the deadline with a server error (500).
The full app inherits the bound. -/
theorem request_timeout_enforced (inner : Service) (s : AppState) (r : Request) :
    (timeoutLayer 10 inner r).time ≤ 10 ∧
    (10 < (inner r).time →
      timeoutLayer 10 inner r =
        ⟨⟨StatusCode.INTERNAL_SERVER_ERROR, "", []⟩, 10, (inner r).ran⟩ ∧
      500 ≤ (timeoutLayer 10 inner r).resp.status) ∧
    (app s r).time ≤ 10 := by
  refine ⟨?_, ?_, ?_⟩
  · rcases Nat.lt_or_ge 10 (inner r).time with h | h
    · have he : timeoutLayer 10 inner r =
          ⟨⟨StatusCode.INTERNAL_SERVER_ERROR, "", []⟩, 10, (inner r).ran⟩ := by
        unfold timeoutLayer
        simp only [if_pos h]
      rw [he]
    · have he : timeoutLayer 10 inner r = inner r := by
        unfold timeoutLayer
        simp only [if_neg (Nat.not_lt.mpr h)]
      rw [he]
      exact h
  · intro h
    have he : timeoutLayer 10 inner r =
        ⟨⟨StatusCode.INTERNAL_SERVER_ERROR, "", []⟩, 10, (inner r).ran⟩ := by
      unfold timeoutLayer
      simp only [if_pos h]
    rw [he]
    exact ⟨rfl, Nat.le_refl 500⟩
  · rcases Nat.lt_or_ge bodyLimit r.body.length with h | h
    · rw [app_reject s r h]
      decide
    · rw [app_pass s r h]
      show (router s r).time ≤ 10
      rw [router_time_eq]
      decide

/-- C3 witness: a service taking 25 seconds is cancelled at the deadline
with the server error; the app completes a concrete request within 10 s. -/
theorem request_timeout_enforced_witness :
    (timeoutLayer 10 slowSvc (getReq ("/"))).time ≤ 10 ∧
    (timeoutLayer 10 slowSvc (getReq ("/")) =
       ⟨⟨StatusCode.INTERNAL_SERVER_ERROR, "", []⟩, 10, (slowSvc (getReq ("/"))).ran⟩ ∧
     500 ≤ (timeoutLayer 10 slowSvc (getReq ("/"))).resp.status) ∧
    (app demoState (getReq ("/"))).time ≤ 10 := by
  obtain ⟨h1, h2, h3⟩ := request_timeout_enforced slowSvc demoState (getReq ("/"))
  exact ⟨h1, h2 (by decide), h3⟩

/-- C1: startup failures are fatal: if the database is unreachable, the bind
address does not parse, or the socket is already taken, `start_server`
returns an error and never reaches the serving state; no effect is performed
twice (nothing is retried). -/
theorem startup_failures_fatal (du ru sa : String) (w : World)
    (h : w.dbReachable = false ∨ w.addrParses = false ∨ w.socketFree = false) :
    (∃ e, (start_server du ru sa w).1 = StartOutcome.err e) ∧
    Effect.serve ∉ (start_server du ru sa w).2 ∧
    ∀ ef : Effect, ((start_server du ru sa w).2.count ef) ≤ 1 := by
  obtain ⟨db, rv, ap, sf, cr, se⟩ := w
  rw [start_server_eq]
  cases db <;> cases rv <;> cases ap <;> cases sf <;> cases cr <;> cases se <;>
    first
      | exact ⟨⟨_, rfl⟩, by decide, by decide⟩
      | simp_all

/-- C1 witness: with the database unreachable, startup errors out, never
serves, and performs no effect twice. -/
theorem startup_failures_fatal_witness :
    (∃ e, (start_server ("postgresql://db:5432/oxide") ("redis://cache:6379")
            ("0.0.0.0:3000") ⟨false, true, true, true, true, false⟩).1 =
          StartOutcome.err e) ∧
    Effect.serve ∉ (start_server ("postgresql://db:5432/oxide") ("redis://cache:6379")
            ("0.0.0.0:3000") ⟨false, true, true, true, true, false⟩).2 ∧
    ∀ ef : Effect, ((start_server ("postgresql://db:5432/oxide") ("redis://cache:6379")
            ("0.0.0.0:3000") ⟨false, true, true, true, true, false⟩).2.count ef) ≤ 1 :=
  startup_failures_fatal ("postgresql://db:5432/oxide") ("redis://cache:6379")
    ("0.0.0.0:3000") ⟨false, true, true, true, true, false⟩ (Or.inl rfl)

/-- C4: constructing the cache client is local: `redis::Client::open`
succeeds exactly when the URL is syntactically valid; the whole of
`start_server` is independent of whether the cache service is reachable;
and no code path ever contacts the cache. -/
theorem redis_client_open_is_local (du ru sa : String) (w : World) (b : Bool) :
    ((∃ c, redis_open ru w.redisUrlValid = Except.ok c) ↔ w.redisUrlValid = true) ∧
    start_server du ru sa { w with cacheReachable := b } = start_server du ru sa w ∧
    Effect.cacheContact ∉ (start_server du ru sa w).2 := by
  obtain ⟨db, rv, ap, sf, cr, se⟩ := w
  refine ⟨?_, ?_, ?_⟩
  · cases rv
    · constructor
      · rintro ⟨c, hc⟩
        simp [redis_open] at hc
      · intro hh
        simp at hh
    · exact ⟨fun _ => rfl, fun _ => ⟨⟨ru⟩, rfl⟩⟩
  · rw [start_server_eq, start_server_eq]
    rfl
  · rw [start_server_eq]
    cases db <;> cases rv <;> cases ap <;> cases sf <;> cases cr <;> cases se <;> decide

/-- C4 witness: opening a valid cache URL succeeds, an unreachable cache
service does not change the run, and the cache is never contacted. -/
theorem redis_client_open_is_local_witness :
    ((∃ c, redis_open ("redis://cache:6379") true = Except.ok c) ↔ (true = true)) ∧
    start_server ("postgresql://db:5432/oxide") ("redis://cache:6379") ("0.0.0.0:3000")
        ⟨true, true, true, true, false, false⟩ =
      start_server ("postgresql://db:5432/oxide") ("redis://cache:6379") ("0.0.0.0:3000")
        ⟨true, true, true, true, true, false⟩ ∧
    Effect.cacheContact ∉ (start_server ("postgresql://db:5432/oxide")
        ("redis://cache:6379") ("0.0.0.0:3000") ⟨true, true, true, true, true, false⟩).2 :=
  redis_client_open_is_local ("postgresql://db:5432/oxide") ("redis://cache:6379")
    ("0.0.0.0:3000") ⟨true, true, true, true, true, false⟩ false

/-- C5: `start_server` performs its effects in the fixed order logging,
database pool, cache client, address parse, bind, serve; logging is
initialized exactly once in every run; the full order is realized when every
step succeeds, after which the outcome is the running server — and in no
world does `start_server` return `ok` (it serves indefinitely or fails). -/
theorem start_server_effect_order (du ru sa : String) (w : World) :
    ((start_server du ru sa w).2).isPrefixOf fullTrace = true ∧
    (start_server du ru sa w).2.count Effect.initLogging = 1 ∧
    (start_server du ru sa w).2.head? = some Effect.initLogging ∧
    (start_server du ru sa w).1 ≠ StartOutcome.ok ∧
    (w.dbReachable = true → w.redisUrlValid = true → w.addrParses = true →
     w.socketFree = true → w.serveFails = false →
       (start_server du ru sa w).2 = fullTrace ∧
       (start_server du ru sa w).1 = StartOutcome.running) := by
  obtain ⟨db, rv, ap, sf, cr, se⟩ := w
  rw [start_server_eq]
  cases db <;> cases rv <;> cases ap <;> cases sf <;> cases cr <;> cases se <;>
    refine ⟨by decide, by decide, by decide, by decide, ?_⟩ <;>
    intro h1 h2 h3 h4 h5 <;>
    first
      | exact ⟨rfl, rfl⟩
      | simp_all

/-- C5 witness: in a world where every step succeeds, the trace is exactly
the canonical order and the outcome is the running server. -/
theorem start_server_effect_order_witness :
    (start_server ("postgresql://db:5432/oxide") ("redis://cache:6379")
       ("0.0.0.0:3000") ⟨true, true, true, true, true, false⟩).2 = fullTrace ∧
    (start_server ("postgresql://db:5432/oxide") ("redis://cache:6379")
       ("0.0.0.0:3000") ⟨true, true, true, true, true, false⟩).1 =
      StartOutcome.running :=
  (start_server_effect_order ("postgresql://db:5432/oxide") ("redis://cache:6379")
     ("0.0.0.0:3000") ⟨true, true, true, true, true, false⟩).2.2.2.2
    rfl rfl rfl rfl rfl

end OxideEngine
